import Mathlib

/-!
Shallow embedding of `src/acer_thermal_lite/acer_thermal_lite.c`, a small
Linux platform driver translating abstract platform-profile requests into
Acer-specific WMI firmware setting words, plus a fan-boost toggle.

Machine integers are modelled as `Nat` with explicit `% 2^64` where the
C code's `u64` overflow semantics matter.  Fallible kernel functions that
return `0` on success and a negative errno on failure are modelled as
`Except Err _` / `Option Err`, with one `Err` constructor per errno that
the source can produce.
-/

/-- Errno values produced by the driver.  `ioFailure` = -EIO,
`noMessage` = -ENOMSG, `notSupported` = -EOPNOTSUPP,
`invalidArgument` = -EINVAL. -/
inductive Err where
  | ioFailure
  | noMessage
  | notSupported
  | invalidArgument
deriving DecidableEq, Repr

/-- `enum platform_profile_option` from `<linux/platform_profile.h>`.
The driver handles five of the variants; `cool` and `custom` exist in the
kernel enum and reach the `default:` branches of the driver's switches. -/
inductive PlatformProfileOption where
  | lowPower
  | cool
  | quiet
  | balanced
  | balancedPerformance
  | performance
  | custom
deriving DecidableEq, Repr, Fintype

/-- Vendor profile codes, from the anonymous `enum` in the source. -/
def ACER_PROFILE_ECO : Nat := 0x06
def ACER_PROFILE_TURBO : Nat := 0x05
def ACER_PROFILE_PERFORMANCE : Nat := 0x04
def ACER_PROFILE_BALANCED : Nat := 0x01
def ACER_PROFILE_QUIET : Nat := 0x00

def METHOD_SET : Nat := 22
def METHOD_GET : Nat := 23

/-- `GENMASK_ULL(7, 0)`. -/
def ACER_MISC_SETTING_INDEX_MASK : Nat := 0xFF
/-- `GENMASK_ULL(15, 8)`. -/
def ACER_MISC_SETTING_VALUE_MASK : Nat := 0xFF00
/-- `GENMASK_ULL(31, 16)`. -/
def ACER_MISC_SETTING_STATUS_MASK : Nat := 0xFFFF0000
def ACER_PLATFORM_PROFILE_INDEX : Nat := 0x0B
def ACER_FAN_BOOST_INDEX : Nat := 0x02

/-- `FIELD_GET(ACER_MISC_SETTING_VALUE_MASK, w)`: extract bits 15:8. -/
def FIELD_GET_VALUE (w : Nat) : Nat := (w &&& ACER_MISC_SETTING_VALUE_MASK) >>> 8

/-- `FIELD_GET(ACER_MISC_SETTING_STATUS_MASK, w)`: extract bits 31:16. -/
def FIELD_GET_STATUS (w : Nat) : Nat := (w &&& ACER_MISC_SETTING_STATUS_MASK) >>> 16

/-- `FIELD_PREP(ACER_MISC_SETTING_VALUE_MASK, v)`: place `v` in bits 15:8. -/
def FIELD_PREP_VALUE (v : Nat) : Nat := (v <<< 8) &&& ACER_MISC_SETTING_VALUE_MASK

/-- The request-word construction used by both store paths of the source:
`u64 input = index; input |= FIELD_PREP(ACER_MISC_SETTING_VALUE_MASK, val);`. -/
def encode_request (index val : Nat) : Nat := index ||| FIELD_PREP_VALUE val

/-- An ACPI result object as inspected by `wmi_gaming_execute`:
`ACPI_TYPE_INTEGER`, `ACPI_TYPE_BUFFER`, or any other object type. -/
inductive AcpiObj where
  | integer (v : Nat)
  | buffer (bytes : List Nat)
  | other
deriving DecidableEq, Repr

/-- Outcome of one `wmi_evaluate_method` transport exchange:
either `ACPI_FAILURE(status)`, or success with `result.pointer` being
NULL (`none`) or some ACPI object. -/
inductive WmiResponse where
  | transportFailure
  | success (obj : Option AcpiObj)
deriving DecidableEq, Repr

/-- `*(u64 *)obj->buffer.pointer`: the first 8 bytes of the buffer
reinterpreted as a little-endian 64-bit integer. -/
def le64 (bytes : List Nat) : Nat :=
  (List.range 8).foldl (fun acc i => acc + (bytes.getD i 0 % 256) <<< (8 * i)) 0

/-- State after `wmi_gaming_execute` returns: `ret` is `none` for 0 and
`some e` for a negative errno; `output` is the value of the caller's
`u64` output variable (unchanged from its prior value on paths that do
not write `*output_val`). -/
structure ExecResult where
  ret : Option Err
  output : Nat
deriving DecidableEq, Repr

/-- `wmi_gaming_execute(method_id, input_val, output_val)` given the
transport's response.  `wantOutput` models `output_val != NULL`;
`output0` is the prior (in the source: uninitialized) value of the
caller's output variable. -/
def wmi_gaming_execute (resp : WmiResponse) (wantOutput : Bool) (output0 : Nat) :
    ExecResult :=
  match resp with
  | .transportFailure => ⟨some .ioFailure, output0⟩
  | .success o =>
    match o with
    | some obj =>
      match obj with
      | .integer v =>
          if wantOutput then ⟨none, v % 2 ^ 64⟩ else ⟨none, output0⟩
      | .buffer bytes =>
          if 8 ≤ bytes.length ∧ wantOutput = true then ⟨none, le64 bytes⟩
          else ⟨none, output0⟩
      | .other => ⟨none, output0⟩
    | none =>
        if wantOutput then ⟨some .noMessage, output0⟩ else ⟨none, output0⟩

/-- One firmware call as issued through `wmi_gaming_execute`. -/
structure FwCall where
  method_id : Nat
  input : Nat
deriving DecidableEq, Repr

/-- The `switch (val)` of `acer_lite_profile_get`: vendor code to
abstract profile; the `default:` branch is `none` (-EOPNOTSUPP). -/
def vendorCodeToProfile (val : Nat) : Option PlatformProfileOption :=
  if val = ACER_PROFILE_TURBO then some .performance
  else if val = ACER_PROFILE_PERFORMANCE then some .balancedPerformance
  else if val = ACER_PROFILE_BALANCED then some .balanced
  else if val = ACER_PROFILE_QUIET then some .quiet
  else if val = ACER_PROFILE_ECO then some .lowPower
  else none

/-- The `switch (profile)` of `acer_lite_profile_set`: abstract profile
to vendor code; the `default:` branch is `none` (-EOPNOTSUPP). -/
def profileToVendorCode : PlatformProfileOption → Option Nat
  | .performance => some ACER_PROFILE_TURBO
  | .balancedPerformance => some ACER_PROFILE_PERFORMANCE
  | .balanced => some ACER_PROFILE_BALANCED
  | .quiet => some ACER_PROFILE_QUIET
  | .lowPower => some ACER_PROFILE_ECO
  | _ => none

/-- `acer_lite_profile_get`: `chan` maps the issued firmware call to the
transport's response; `g` is the (uninitialized) stack value of `result`.
The source passes `&result`, so `wantOutput = true`. -/
def acer_lite_profile_get (chan : FwCall → WmiResponse) (g : Nat) :
    Except Err PlatformProfileOption :=
  let input := ACER_PLATFORM_PROFILE_INDEX
  let er := wmi_gaming_execute (chan ⟨METHOD_GET, input⟩) true g
  match er.ret with
  | some e => .error e
  | none =>
    if FIELD_GET_STATUS er.output ≠ 0 then .error .ioFailure
    else
      match vendorCodeToProfile (FIELD_GET_VALUE er.output) with
      | some p => .ok p
      | none => .error .notSupported

/-- `acer_lite_profile_set`: result paired with the list of firmware
calls issued (empty when the `default:` branch returns early). -/
def acer_lite_profile_set (chan : FwCall → WmiResponse) (g : Nat)
    (profile : PlatformProfileOption) : Except Err Unit × List FwCall :=
  match profileToVendorCode profile with
  | none => (.error .notSupported, [])
  | some val =>
    let input := encode_request ACER_PLATFORM_PROFILE_INDEX val
    let call : FwCall := ⟨METHOD_SET, input⟩
    let er := wmi_gaming_execute (chan call) true g
    ((match er.ret with
      | some e => .error e
      | none => .ok ()), [call])

/-- `fan_boost_show`: on success the source emits the decoded value with
`sysfs_emit(buf, "%d\n", (u8)FIELD_GET(...))`; we model the read as
returning that emitted number. -/
def fan_boost_show (chan : FwCall → WmiResponse) (g : Nat) : Except Err Nat :=
  let er := wmi_gaming_execute (chan ⟨METHOD_GET, ACER_FAN_BOOST_INDEX⟩) true g
  match er.ret with
  | some e => .error e
  | none => .ok (FIELD_GET_VALUE er.output)

/-- `kstrtouint(buf, 10, &val)` modelled as `Option Nat` (`none` for any
nonzero errno).  Kernel semantics for base 10: an optional leading `+`,
then at least one decimal digit, an optional single trailing newline,
then end of string; a parsed value above `UINT_MAX` is out of range. -/
def kstrtouint (s : String) : Option Nat :=
  let cs := match s.data with
            | c :: rest => if c = '+' then rest else s.data
            | [] => s.data
  let digits := cs.takeWhile Char.isDigit
  let rest := cs.dropWhile Char.isDigit
  if digits = [] then none
  else
    let v : Nat := digits.foldl (fun acc c => acc * 10 + (c.toNat - 48)) 0
    let rest2 : List Char :=
      match rest with
      | c :: tail => if c = '\n' then tail else rest
      | [] => rest
    if rest2 = [] ∧ v ≤ 0xFFFFFFFF then some v else none

/-- `fan_boost_store`: result (`.ok count` on success) paired with the
list of firmware calls issued (empty when validation rejects the input
before any call). -/
def fan_boost_store (chan : FwCall → WmiResponse) (g : Nat) (buf : String)
    (count : Nat) : Except Err Nat × List FwCall :=
  match kstrtouint buf with
  | none => (.error .invalidArgument, [])
  | some val =>
    if 1 < val then (.error .invalidArgument, [])
    else
      let input := encode_request ACER_FAN_BOOST_INDEX val
      let call : FwCall := ⟨METHOD_SET, input⟩
      let er := wmi_gaming_execute (chan call) true g
      ((match er.ret with
        | some e => .error e
        | none => .ok count), [call])

/-- The round-trip experiment of §8: run `acer_lite_profile_set` against a
stub answering success (integer 0), then run `acer_lite_profile_get`
against a stub that echoes the value field of the written request word
back in the value field of the response, with status 0. -/
def echoRoundTrip (g : Nat) (p : PlatformProfileOption) :
    Except Err PlatformProfileOption :=
  match acer_lite_profile_set (fun _ => .success (some (.integer 0))) g p with
  | (.error e, _) => .error e
  | (.ok _, calls) =>
    match calls with
    | [c] =>
        acer_lite_profile_get
          (fun _ => .success (some (.integer (FIELD_PREP_VALUE (FIELD_GET_VALUE c.input)))))
          g
    | _ => .error .ioFailure

/-- Whether `wmi_gaming_execute` can extract an output value from an ACPI
object: a native integer, or a buffer of at least 8 bytes. -/
def payloadUsable : AcpiObj → Bool
  | .integer _ => true
  | .buffer bytes => decide (8 ≤ bytes.length)
  | .other => false

deriving instance DecidableEq for Except

lemma wmi_exec_integer (v g : Nat) :
    wmi_gaming_execute (.success (some (.integer v))) true g = ⟨none, v % 2 ^ 64⟩ := rfl

lemma fan_boost_show_integer_eq (w g : Nat) (hw : w < 2 ^ 64) :
    fan_boost_show (fun _ => .success (some (.integer w))) g = .ok (FIELD_GET_VALUE w) := by
  simp only [fan_boost_show, wmi_exec_integer]
  rw [Nat.mod_eq_of_lt hw]

lemma profile_get_integer_eio (w g : Nat) (hw : w < 2 ^ 64)
    (hs : FIELD_GET_STATUS w ≠ 0) :
    acer_lite_profile_get (fun _ => .success (some (.integer w))) g = .error .ioFailure := by
  simp only [acer_lite_profile_get, wmi_exec_integer]
  rw [Nat.mod_eq_of_lt hw]
  simp [hs]

/-- Claim C1: the VendorProfileCode to AbstractProfile mapping implemented
by the two switches of `acer_lite_profile_get` / `acer_lite_profile_set`
is exactly the 5-entry table Performance 0x05, BalancedPerformance 0x04,
Balanced 0x01, Quiet 0x00, LowPower 0x06; the two directions are mutually
inverse (a bijection between the 5 profiles and the 5 codes), and no
profile maps to the gap codes 0x02 or 0x03. -/
theorem C1_profile_mapping_bijection :
    (profileToVendorCode .performance = some 0x05
    ∧ profileToVendorCode .balancedPerformance = some 0x04
    ∧ profileToVendorCode .balanced = some 0x01
    ∧ profileToVendorCode .quiet = some 0x00
    ∧ profileToVendorCode .lowPower = some 0x06)
  ∧ (vendorCodeToProfile 0x05 = some .performance
    ∧ vendorCodeToProfile 0x04 = some .balancedPerformance
    ∧ vendorCodeToProfile 0x01 = some .balanced
    ∧ vendorCodeToProfile 0x00 = some .quiet
    ∧ vendorCodeToProfile 0x06 = some .lowPower)
  ∧ (∀ p q : PlatformProfileOption,
      (profileToVendorCode p).isSome = true →
      profileToVendorCode p = profileToVendorCode q → p = q)
  ∧ (∀ (p : PlatformProfileOption) (c : Nat), profileToVendorCode p = some c →
      vendorCodeToProfile c = some p)
  ∧ (∀ c : Nat, c < 256 → ∀ p, vendorCodeToProfile c = some p →
      profileToVendorCode p = some c)
  ∧ (∀ p : PlatformProfileOption,
      profileToVendorCode p ≠ some 0x02 ∧ profileToVendorCode p ≠ some 0x03) := by
  refine ⟨by decide, by decide, by decide, ?_, by set_option maxRecDepth 8192 in decide, by decide⟩
  intro p c hc
  cases p <;> simp [profileToVendorCode] at hc <;> subst hc <;> decide

/-- Witness for C1: the inverse-direction conjunct applied at
Performance and 0x05. -/
theorem C1_witness : vendorCodeToProfile 0x05 = some PlatformProfileOption.performance :=
  C1_profile_mapping_bijection.2.2.2.1 .performance 0x05 (by decide)

/-- Claim C2: for each of the 5 supported profiles `p`, running
`acer_lite_profile_set p` and then `acer_lite_profile_get` against a
firmware stub that echoes the last-written value field back with status 0
yields exactly `p`: the set-direction and get-direction switches are
mutual inverses. -/
theorem C2_round_trip (g : Nat) :
    echoRoundTrip g .performance = .ok .performance
  ∧ echoRoundTrip g .balancedPerformance = .ok .balancedPerformance
  ∧ echoRoundTrip g .balanced = .ok .balanced
  ∧ echoRoundTrip g .quiet = .ok .quiet
  ∧ echoRoundTrip g .lowPower = .ok .lowPower := by
  refine ⟨?_, ?_, ?_, ?_, ?_⟩ <;>
    · simp only [echoRoundTrip, acer_lite_profile_set, acer_lite_profile_get,
        profileToVendorCode, wmi_exec_integer]
      split
      · next h => exact absurd h (by decide)
      · decide

/-- Witness for C2: the round trip at Performance with garbage value 0. -/
theorem C2_witness : echoRoundTrip 0 .performance = .ok .performance :=
  (C2_round_trip 0).1

/-- Claim C3: for every 64-bit response word whose status field
(bits 31:16) is non-zero, `acer_lite_profile_get` fails with -EIO
(firmware reported failure), whatever the value field holds; the value is
never mapped through the profile table. -/
theorem C3_nonzero_status_rejected (w g : Nat) (hw : w < 2 ^ 64)
    (hs : FIELD_GET_STATUS w ≠ 0) :
    acer_lite_profile_get (fun _ => .success (some (.integer w))) g = .error .ioFailure :=
  profile_get_integer_eio w g hw hs

/-- Witness for C3: response word 0x10000 (status 1, value 0). -/
theorem C3_witness :
    0x10000 < 2 ^ 64 ∧ FIELD_GET_STATUS 0x10000 ≠ 0 ∧
    acer_lite_profile_get (fun _ => .success (some (.integer 0x10000))) 0
      = .error .ioFailure :=
  ⟨by decide, by decide, C3_nonzero_status_rejected 0x10000 0 (by decide) (by decide)⟩

/-- Claim C4: for every 64-bit response word with status 0 whose value
field is not one of the 5 valid vendor codes, `acer_lite_profile_get`
fails with -EOPNOTSUPP and never coerces the result to a default
profile. -/
theorem C4_unsupported_code_rejected (w g : Nat) (hw : w < 2 ^ 64)
    (hs : FIELD_GET_STATUS w = 0)
    (hv : FIELD_GET_VALUE w ∉ ([0x00, 0x01, 0x04, 0x05, 0x06] : List Nat)) :
    acer_lite_profile_get (fun _ => .success (some (.integer w))) g
      = .error .notSupported := by
  simp only [List.mem_cons, List.not_mem_nil, or_false, not_or] at hv
  obtain ⟨h0, h1, h4, h5, h6⟩ := hv
  simp only [acer_lite_profile_get, wmi_exec_integer]
  rw [Nat.mod_eq_of_lt hw]
  rw [if_neg (by simp [hs])]
  rw [show vendorCodeToProfile (FIELD_GET_VALUE w) = none from by
    simp [vendorCodeToProfile, ACER_PROFILE_TURBO, ACER_PROFILE_PERFORMANCE,
      ACER_PROFILE_BALANCED, ACER_PROFILE_QUIET, ACER_PROFILE_ECO,
      h0, h1, h4, h5, h6]]

/-- Witness for C4: response word 0x200 (status 0, value 0x02, a gap
code). -/
theorem C4_witness :
    0x200 < 2 ^ 64 ∧ FIELD_GET_STATUS 0x200 = 0 ∧
    FIELD_GET_VALUE 0x200 ∉ ([0x00, 0x01, 0x04, 0x05, 0x06] : List Nat) ∧
    acer_lite_profile_get (fun _ => .success (some (.integer 0x200))) 0
      = .error .notSupported :=
  ⟨by decide, by decide, by decide,
    C4_unsupported_code_rejected 0x200 0 (by decide) (by decide) (by decide)⟩

/-- Claim C5: any fan-boost write whose input does not parse as exactly
0 or 1 (including "2", negative numbers and non-numeric strings) fails
with -EINVAL and issues zero firmware calls; on inputs 0 and 1 exactly
one Set firmware call is made, with index FanBoost (0x02) in bits 7:0
and the written value in bits 15:8. -/
theorem C5_fan_boost_validation (chan : FwCall → WmiResponse) (g : Nat)
    (buf : String) (count : Nat) :
    (kstrtouint buf = none →
      fan_boost_store chan g buf count = (.error .invalidArgument, []))
  ∧ (∀ v, kstrtouint buf = some v → 1 < v →
      fan_boost_store chan g buf count = (.error .invalidArgument, []))
  ∧ (∀ v, kstrtouint buf = some v → v ≤ 1 →
      (fan_boost_store chan g buf count).2
        = [⟨METHOD_SET, encode_request ACER_FAN_BOOST_INDEX v⟩]
      ∧ FIELD_GET_VALUE (encode_request ACER_FAN_BOOST_INDEX v) = v
      ∧ encode_request ACER_FAN_BOOST_INDEX v &&& ACER_MISC_SETTING_INDEX_MASK
          = ACER_FAN_BOOST_INDEX) := by
  refine ⟨?_, ?_, ?_⟩
  · intro h
    simp [fan_boost_store, h]
  · intro v hv hgt
    simp [fan_boost_store, hv, hgt]
  · intro v hv hle
    have hn : ¬ 1 < v := by omega
    refine ⟨?_, ?_, ?_⟩
    · simp [fan_boost_store, hv, hn]
    · interval_cases v <;> decide
    · interval_cases v <;> decide

/-- Witness for C5: writing "2" is rejected with -EINVAL and no firmware
call. -/
theorem C5_witness :
    kstrtouint "2" = some 2 ∧
    fan_boost_store (fun _ => .success none) 0 "2" 1
      = (.error .invalidArgument, []) :=
  ⟨by decide,
    (C5_fan_boost_validation (fun _ => .success none) 0 "2" 1).2.1 2 (by decide)
      (by decide)⟩

/-- Counterexample to claim C6: on the read path (`output_val` non-null),
a successfully transported payload of a non-integer, non-buffer object
type is NOT a decode error: `wmi_gaming_execute` returns success (ret 0)
and leaves the output variable untouched; only a NULL result object
yields -ENOMSG. -/
theorem C6_counterexample :
    wmi_gaming_execute (.success (some .other)) true 0 = ⟨none, 0⟩ := rfl

/-- Claim C6 as amended: when the caller expects an output value, only
the complete absence of a payload object is a -ENOMSG decode error; a
present payload that is neither a native integer nor a byte buffer of at
least 8 bytes is tolerated and silently ignored as success (with the
output left unchanged) whether or not an output is expected; when no
output is expected, even an absent payload is success. -/
theorem C6_amended_leniency (g : Nat) (o : AcpiObj)
    (ho : payloadUsable o = false) :
    wmi_gaming_execute (.success (some o)) true g = ⟨none, g⟩
    ∧ wmi_gaming_execute (.success (some o)) false g = ⟨none, g⟩
    ∧ wmi_gaming_execute (.success none) true g = ⟨some .noMessage, g⟩
    ∧ wmi_gaming_execute (.success none) false g = ⟨none, g⟩ := by
  refine ⟨?_, ?_, rfl, rfl⟩ <;>
    · cases o with
      | integer v => exact absurd ho (by simp [payloadUsable])
      | buffer bytes =>
          have hlen : ¬ 8 ≤ bytes.length := by
            simpa [payloadUsable] using ho
          simp [wmi_gaming_execute, hlen]
      | other => rfl

/-- Witness for C6 (amended): a payload of some other ACPI object type,
read path, garbage output value 7. -/
theorem C6_witness :
    payloadUsable AcpiObj.other = false ∧
    wmi_gaming_execute (.success (some .other)) true 7 = ⟨none, 7⟩ :=
  ⟨rfl, (C6_amended_leniency 7 .other rfl).1⟩

/-- Counterexample to claim C7: the request encoding of the source
(`index | FIELD_PREP(VALUE_MASK, value)`) does not satisfy the spec's
concrete example `encode_request(0x0B, 0x05) == 0x0B05`; that example has
the two bytes swapped. -/
theorem C7_counterexample : encode_request 0x0B 0x05 ≠ 0x0B05 := by decide

/-- Claim C7 as amended: the request encoding is `index | (value << 8)`
(index in bits 7:0, value in bits 15:8), and the concrete example
evaluates to `encode_request(0x0B, 0x05) == 0x050B`. -/
theorem C7_encode_request_amended :
    encode_request 0x0B 0x05 = 0x050B
    ∧ (∀ v : Nat, v < 256 → ∀ index : Nat,
        encode_request index v = index ||| (v <<< 8)) := by
  have h : ∀ v : Nat, v < 256 → FIELD_PREP_VALUE v = v <<< 8 := by
    set_option maxRecDepth 8192 in decide
  exact ⟨by decide, fun v hv index => by rw [encode_request, h v hv]⟩

/-- Witness for C7 (amended): the general form applied at value 0x05,
index 0x0B. -/
theorem C7_witness : encode_request 0x0B 0x05 = 0x0B ||| (0x05 <<< 8) :=
  C7_encode_request_amended.2 0x05 (by decide) 0x0B

/-- Claim C8: `fan_boost_show` returns the raw decoded value field
(bits 15:8) of the response without validating it against the set 0, 1:
for every 64-bit response word, whatever the value field holds (in
particular any value greater than 1), that value is passed through to the
caller as-is, not reported as an error. -/
theorem C8_fan_boost_raw_passthrough (w g : Nat) (hw : w < 2 ^ 64) :
    fan_boost_show (fun _ => .success (some (.integer w))) g
      = .ok (FIELD_GET_VALUE w) :=
  fan_boost_show_integer_eq w g hw

/-- Witness for C8: response word 0x200 (value field 2, outside the 0, 1
domain) is reported as a successful read of 2. -/
theorem C8_witness :
    0x200 < 2 ^ 64 ∧ FIELD_GET_VALUE 0x200 = 2 ∧
    fan_boost_show (fun _ => .success (some (.integer 0x200))) 0
      = .ok (FIELD_GET_VALUE 0x200) :=
  ⟨by decide, by decide, C8_fan_boost_raw_passthrough 0x200 0 (by decide)⟩

/-- Claim C9: `fan_boost_show` never inspects the status field
(bits 31:16): for every channel-decodable 64-bit response word with
non-zero status it still reports the value field as a successful read,
whereas `acer_lite_profile_get` on the same response fails with -EIO. -/
theorem C9_fan_boost_ignores_status (w g : Nat) (hw : w < 2 ^ 64)
    (hs : FIELD_GET_STATUS w ≠ 0) :
    fan_boost_show (fun _ => .success (some (.integer w))) g
      = .ok (FIELD_GET_VALUE w)
    ∧ acer_lite_profile_get (fun _ => .success (some (.integer w))) g
      = .error .ioFailure :=
  ⟨fan_boost_show_integer_eq w g hw, profile_get_integer_eio w g hw hs⟩

/-- Witness for C9: response word 0x10100 (status 1, value 1): the
fan-boost read succeeds with 1 while the profile read fails. -/
theorem C9_witness :
    0x10100 < 2 ^ 64 ∧ FIELD_GET_STATUS 0x10100 ≠ 0 ∧
    (fan_boost_show (fun _ => .success (some (.integer 0x10100))) 0
        = .ok (FIELD_GET_VALUE 0x10100)
      ∧ acer_lite_profile_get (fun _ => .success (some (.integer 0x10100))) 0
        = .error .ioFailure) :=
  ⟨by decide, by decide,
    C9_fan_boost_ignores_status 0x10100 0 (by decide) (by decide)⟩

/-- Claim C10: for every profile value outside the 5 supported variants
(for example the kernel's custom option), `acer_lite_profile_set` returns
-EOPNOTSUPP from the switch's default branch and issues no firmware
call, leaving firmware state unchanged. -/
theorem C10_set_rejects_unsupported (chan : FwCall → WmiResponse) (g : Nat)
    (p : PlatformProfileOption)
    (hp : p ∉ ([.lowPower, .quiet, .balanced, .balancedPerformance, .performance] :
        List PlatformProfileOption)) :
    acer_lite_profile_set chan g p = (.error .notSupported, []) := by
  cases p <;> simp_all [acer_lite_profile_set, profileToVendorCode]

/-- Witness for C10: setting the custom profile issues no call and fails
with -EOPNOTSUPP. -/
theorem C10_witness :
    acer_lite_profile_set (fun _ => .transportFailure) 0 .custom
      = (.error .notSupported, []) :=
  C10_set_rejects_unsupported (fun _ => .transportFailure) 0 .custom (by decide)
